import Mathlib

/-!
Shallow embedding of the Doc-Check batch document-processing pipeline and the
document version service, translated from:

  - app/models/batch.py                       (Batch model, BatchStatus enum)
  - app/models/document.py                    (Document model)
  - app/models/document_version.py            (DocumentVersion model)
  - app/services/batch_processor.py           (BatchProcessor)
  - app/services/document_version_service.py  (DocumentVersionService)
  - app/api/v1/batches.py                     (create_batch intake route)

The persistent store is modelled as explicit lists of records; SQLAlchemy
queries become list combinators (`find?`, `filter`, `mergeSort`), commits are
the identity (every mutation is immediately visible in the returned state),
and raised Python exceptions become `Except` error values.  Python dicts with
string keys are modelled as association lists.
-/

/-- Association-list model of a Python dict with string keys.  Values are kept
opaque as strings; `dictGet` is Python's `dict.get` (None when absent). -/
abbrev PyDict := List (String × String)

/-- Python `dict.get key`: the value at the first matching key, or none. -/
def dictGet (t : PyDict) (key : String) : Option String :=
  (t.find? (fun p => p.1 == key)).map (fun p => p.2)

/-- Python `list(dict.keys())`. -/
def dictKeys (t : PyDict) : List String :=
  t.map (fun p => p.1)

/-- Embedding of the `BatchStatus` enum of app/models/batch.py. -/
inductive BatchStatus where
  | pending
  | processing
  | completed
  | failed
deriving DecidableEq, Repr

/-- Embedding of the `Batch` record.  The fields through `owner_id` are the
declared columns of app/models/batch.py (integer columns default to 0).  The
four trailing fields (`total_documents`, `processed_documents`,
`success_count`, `error_count`) are not declared columns: they are plain
instance attributes that app/services/batch_processor.py reads and writes on
batch objects; the embedding carries them alongside the columns, also
defaulting to 0. -/
structure BatchRec where
  id : Nat
  name : String
  description : String
  document_type : String
  file_path : String
  status : BatchStatus
  document_count : Nat
  processed_count : Nat
  failed_count : Nat
  owner_id : Nat
  total_documents : Nat
  processed_documents : Nat
  success_count : Nat
  error_count : Nat
deriving DecidableEq, Repr

/-- Embedding of the `Document` record of app/models/document.py, restricted
to the fields the batch pipeline reads or writes.  `processed_text` and
`ai_analysis` are nullable until the document is processed. -/
structure DocumentRec where
  id : Nat
  filename : String
  file_type : String
  document_type : String
  batch_id : Option Nat
  owner_id : Nat
  status : String
  file_content : String
  processed_text : Option PyDict
  ai_analysis : Option PyDict
deriving DecidableEq, Repr

/-- Embedding of the `DocumentVersion` record.  `document_id`,
`version_number`, `changes`, `created_by` are declared columns of
app/models/document_version.py; `processed_text` and `ai_analysis` are the
attributes app/services/document_version_service.py stores on the instance
and reads back in `compare_versions`. -/
structure DocumentVersionRec where
  id : Nat
  document_id : Nat
  version_number : Nat
  processed_text : PyDict
  ai_analysis : PyDict
  changes : PyDict
  created_by : Nat
deriving DecidableEq, Repr

/-- The persistent store: the three relations of the pipeline plus the
auto-increment counters the database would supply for primary keys. -/
structure DB where
  batches : List BatchRec
  documents : List DocumentRec
  versions : List DocumentVersionRec
  next_batch_id : Nat
  next_document_id : Nat
  next_version_id : Nat
deriving DecidableEq, Repr

/-- Exceptions raised by the embedded code, one constructor per raise site:
`batchNotFound` is ValueError "Batch not found"; `batchNotPendingForAdd` is
ValueError "Cannot add documents to a non-pending batch"; and
`batchNotPendingForProcess` is ValueError "Batch is not in pending state"
(the spec's InvalidStateError); `versionNotFound` is ValueError "Version not
found" and `compareVersionsNotFound` is ValueError "One or both versions not
found" (the spec's NotFoundError); `batchProcessingFailed` is the wrapped
Exception re-raised by `process_batch` (the spec's OrchestrationFault);
`requestValidationFailed` is the request-validation rejection (the spec's
ValidationError). -/
inductive ServiceError where
  | batchNotFound
  | batchNotPendingForAdd
  | batchNotPendingForProcess
  | versionNotFound
  | compareVersionsNotFound
  | batchProcessingFailed
  | requestValidationFailed
deriving DecidableEq, Repr

/-! ## Document version service (app/services/document_version_service.py) -/

/-- The query `db.query(DocumentVersion).filter(DocumentVersion.document_id
== document_id)` without an ordering. -/
def versionsOfDocument (db : DB) (document_id : Nat) : List DocumentVersionRec :=
  db.versions.filter (fun v => v.document_id == document_id)

/-- Descending comparison on `version_number`, the ordering of
`order_by(DocumentVersion.version_number.desc())`. -/
def vnumDesc (a b : DocumentVersionRec) : Bool :=
  b.version_number ≤ a.version_number

/-- Ascending comparison on `version_number`, the ordering of
`order_by(DocumentVersion.version_number.asc())`. -/
def vnumAsc (a b : DocumentVersionRec) : Bool :=
  a.version_number ≤ b.version_number

/-- The `latest_version` query of `create_version`: the document's versions
ordered by version number descending, first row if any. -/
def latestVersionQuery (db : DB) (document_id : Nat) : Option DocumentVersionRec :=
  ((versionsOfDocument db document_id).mergeSort vnumDesc).head?

/-- Embedding of `DocumentVersionService.create_version`: the new version
number is 1 when the document has no versions and `latest.version_number + 1`
otherwise; the new record is inserted and returned.  The Python code performs
no existence check on `document_id`. -/
def create_version (db : DB) (document_id : Nat)
    (processed_text ai_analysis changes : PyDict) (created_by : Nat) :
    DocumentVersionRec × DB :=
  let version_number :=
    match latestVersionQuery db document_id with
    | none => 1
    | some latest => latest.version_number + 1
  let version : DocumentVersionRec :=
    { id := db.next_version_id
      document_id := document_id
      version_number := version_number
      processed_text := processed_text
      ai_analysis := ai_analysis
      changes := changes
      created_by := created_by }
  (version,
    { db with
        versions := db.versions ++ [version]
        next_version_id := db.next_version_id + 1 })

/-- Embedding of `DocumentVersionService.get_version`: first row matching
document id and version number, ValueError "Version not found" when absent. -/
def get_version (db : DB) (document_id version_number : Nat) :
    Except ServiceError DocumentVersionRec :=
  match db.versions.find?
      (fun v => v.document_id == document_id && v.version_number == version_number) with
  | none => Except.error ServiceError.versionNotFound
  | some v => Except.ok v

/-- Embedding of `DocumentVersionService.list_versions`: the document's
versions ordered by version number ascending. -/
def list_versions (db : DB) (document_id : Nat) : List DocumentVersionRec :=
  (versionsOfDocument db document_id).mergeSort vnumAsc

/-- One entry of the change dict produced by the comparison helpers: the key
together with the two `dict.get` values (the "old"/"new" pair). -/
abbrev FieldChange := String × Option String × Option String

/-- Embedding of `DocumentVersionService._compare_text`: for every key of
either dict (the Python `set` of the concatenated key lists, modelled as
deduplication), emit the old/new pair when the two `get` results differ. -/
def compare_text (text1 text2 : PyDict) : List FieldChange :=
  ((dictKeys text1 ++ dictKeys text2).dedup).filterMap (fun key =>
    if dictGet text1 key ≠ dictGet text2 key then
      some (key, dictGet text1 key, dictGet text2 key)
    else none)

/-- Embedding of `DocumentVersionService._compare_analysis`; same body as
`_compare_text` applied to the `ai_analysis` dicts. -/
def compare_analysis (analysis1 analysis2 : PyDict) : List FieldChange :=
  ((dictKeys analysis1 ++ dictKeys analysis2).dedup).filterMap (fun key =>
    if dictGet analysis1 key ≠ dictGet analysis2 key then
      some (key, dictGet analysis1 key, dictGet analysis2 key)
    else none)

/-- The dict returned by `compare_versions`. -/
structure VersionComparison where
  version1 : Nat
  version2 : Nat
  text_changes : List FieldChange
  analysis_changes : List FieldChange
deriving DecidableEq, Repr

/-- Embedding of `DocumentVersionService.compare_versions`: look up both
versions, fail with ValueError "One or both versions not found" if either is
absent, otherwise return the field-level diffs of the two `processed_text`
dicts and the two `ai_analysis` dicts. -/
def compare_versions (db : DB) (document_id version1 version2 : Nat) :
    Except ServiceError VersionComparison :=
  match db.versions.find?
          (fun v => v.document_id == document_id && v.version_number == version1),
        db.versions.find?
          (fun v => v.document_id == document_id && v.version_number == version2) with
  | some v1, some v2 =>
      Except.ok
        { version1 := v1.version_number
          version2 := v2.version_number
          text_changes := compare_text v1.processed_text v2.processed_text
          analysis_changes := compare_analysis v1.ai_analysis v2.ai_analysis }
  | _, _ => Except.error ServiceError.compareVersionsNotFound

/-! ## Batch pipeline (app/services/batch_processor.py, app/api/v1/batches.py) -/

/-- The lookup `db.query(Batch).filter(Batch.id == batch_id).first()`. -/
def findBatch (db : DB) (batch_id : Nat) : Option BatchRec :=
  db.batches.find? (fun b => b.id == batch_id)

/-- In-place mutation of the batch object with the given id followed by a
commit: the stored row is replaced by its image under `f`. -/
def updateBatch (db : DB) (batch_id : Nat) (f : BatchRec → BatchRec) : DB :=
  { db with batches := db.batches.map (fun b => if b.id == batch_id then f b else b) }

/-- In-place mutation of the document object with the given id followed by a
commit. -/
def updateDocument (db : DB) (doc_id : Nat) (f : DocumentRec → DocumentRec) : DB :=
  { db with documents := db.documents.map (fun d => if d.id == doc_id then f d else d) }

/-- One uploaded file of a multipart request (FastAPI `UploadFile`). -/
structure FileUpload where
  filename : String
  content : String
deriving DecidableEq, Repr

/-- The dict returned by one `DocumentProcessor.process_document` call, with
its "text" and "analysis" entries. -/
structure ProcessResult where
  text : PyDict
  analysis : PyDict
deriving DecidableEq, Repr

/-- The text-extraction collaborator: one call of
`DocumentProcessor.process_document` on a document.  `none` models the call
raising an extraction error, `some` a successful result.  The extractor is a
parameter of the orchestrator, matching the spec's treatment of OCR/AI
extraction as an external collaborator. -/
abbrev Extractor := DocumentRec → Option ProcessResult

/-- The query of `process_batch` selecting the batch's documents still in
status "pending". -/
def pendingDocsOfBatch (db : DB) (batch_id : Nat) : List DocumentRec :=
  db.documents.filter (fun d => d.batch_id == some batch_id && d.status == "pending")

/-- The `asyncio.gather` call of `process_batch` (default arguments): every
document is processed and all results collected in order, but if any call
raises, the gather itself raises and no per-document result is delivered. -/
def gatherResults (proc : Extractor) : List DocumentRec → Option (List ProcessResult)
  | [] => some []
  | d :: ds =>
    match proc d with
    | none => none
    | some r =>
      match gatherResults proc ds with
      | none => none
      | some rs => some (r :: rs)

/-- One iteration of the success loop of `process_batch`: store the result's
text and analysis on the document, mark it "processed", and increment the
batch's `processed_documents` and `success_count`. -/
def applySuccess (batch_id : Nat) (db : DB) (dr : DocumentRec × ProcessResult) : DB :=
  let db1 := updateDocument db dr.1.id (fun d =>
    { d with
        processed_text := some dr.2.text
        ai_analysis := some dr.2.analysis
        status := "processed" })
  updateBatch db1 batch_id (fun b =>
    { b with
        processed_documents := b.processed_documents + 1
        success_count := b.success_count + 1 })

/-- The dict returned by a successful `process_batch` call. -/
structure BatchRunSummary where
  batch_id : Nat
  status : BatchStatus
  processed_documents : Nat
  success_count : Nat
  error_count : Nat
deriving DecidableEq, Repr

/-- Embedding of `BatchProcessor.process_batch`.  Steps, in source order:
look the batch up (ValueError "Batch not found" when absent); reject a batch
whose status is not PENDING (ValueError "Batch is not in pending state")
before any mutation; set the status to PROCESSING and commit; select the
batch's pending documents; gather the extraction results of all of them — if
any extraction raises, the `except` branch sets the status to FAILED,
increments `error_count` once, commits and re-raises; otherwise the success
loop updates every document and increments the per-document counters, the
status becomes COMPLETED and the summary dict is returned. -/
def process_batch (proc : Extractor) (db : DB) (batch_id : Nat) :
    DB × Except ServiceError BatchRunSummary :=
  match findBatch db batch_id with
  | none => (db, Except.error ServiceError.batchNotFound)
  | some batch =>
    if batch.status ≠ BatchStatus.pending then
      (db, Except.error ServiceError.batchNotPendingForProcess)
    else
      let db1 := updateBatch db batch_id (fun b => { b with status := BatchStatus.processing })
      let documents := pendingDocsOfBatch db1 batch_id
      match gatherResults proc documents with
      | none =>
          let db2 := updateBatch db1 batch_id (fun b =>
            { b with status := BatchStatus.failed, error_count := b.error_count + 1 })
          (db2, Except.error ServiceError.batchProcessingFailed)
      | some results =>
          let db2 := (documents.zip results).foldl (applySuccess batch_id) db1
          let db3 := updateBatch db2 batch_id (fun b => { b with status := BatchStatus.completed })
          let final := (findBatch db3 batch_id).getD batch
          (db3,
            Except.ok
              { batch_id := batch_id
                status := final.status
                processed_documents := final.processed_documents
                success_count := final.success_count
                error_count := final.error_count })

/-- Embedding of `BatchProcessor.create_batch`: inserts a fresh batch with
the given metadata; every status and counter field takes its column default
(PENDING, zeroes). -/
def bp_create_batch (db : DB) (name description document_type : String)
    (owner_id : Nat) : BatchRec × DB :=
  let batch : BatchRec :=
    { id := db.next_batch_id
      name := name
      description := description
      document_type := document_type
      file_path := ""
      status := BatchStatus.pending
      document_count := 0
      processed_count := 0
      failed_count := 0
      owner_id := owner_id
      total_documents := 0
      processed_documents := 0
      success_count := 0
      error_count := 0 }
  (batch,
    { db with
        batches := db.batches ++ [batch]
        next_batch_id := db.next_batch_id + 1 })

/-- Python `file.filename.split('.')[-1]`. -/
def fileTypeOf (filename : String) : String :=
  (filename.splitOn ".").getLastD ""

/-- The dict returned by `add_documents_to_batch`. -/
structure AddDocumentsResult where
  batch_id : Nat
  documents_added : Nat
  total_documents : Nat
deriving DecidableEq, Repr

/-- Embedding of `BatchProcessor.add_documents_to_batch`: look the batch up
(ValueError "Batch not found" when absent); reject a batch whose status is
not PENDING (ValueError "Cannot add documents to a non-pending batch")
before creating any document; otherwise build one pending document per file
(filename derived from the batch id and the count of the batch's existing
documents, file type from the upload's filename), insert them all, add the
file count to the batch's `total_documents` and return the summary dict. -/
def add_documents_to_batch (db : DB) (batch_id : Nat) (files : List FileUpload) :
    DB × Except ServiceError AddDocumentsResult :=
  match findBatch db batch_id with
  | none => (db, Except.error ServiceError.batchNotFound)
  | some batch =>
    if batch.status ≠ BatchStatus.pending then
      (db, Except.error ServiceError.batchNotPendingForAdd)
    else
      let existing := (db.documents.filter (fun d => d.batch_id == some batch_id)).length
      let newDocs := files.enum.map (fun p =>
        { id := db.next_document_id + p.1
          filename := "batch_" ++ toString batch_id ++ "_" ++ toString (existing + 1)
          file_type := fileTypeOf p.2.filename
          document_type := batch.document_type
          batch_id := some batch_id
          owner_id := batch.owner_id
          status := "pending"
          file_content := p.2.content
          processed_text := none
          ai_analysis := none : DocumentRec })
      let db1 :=
        { db with
            documents := db.documents ++ newDocs
            next_document_id := db.next_document_id + files.length }
      let db2 := updateBatch db1 batch_id (fun b =>
        { b with total_documents := b.total_documents + files.length })
      (db2,
        Except.ok
          { batch_id := batch_id
            documents_added := files.length
            total_documents := batch.total_documents + files.length })

/-- Modelled from the spec: the REST routing/validation layer, an external
collaborator in the spec, enforces the handler declaration
"files: List[UploadFile] = File(...)" of app/api/v1/batches.py — the files
field is required, so a batch-creation request supplying zero files is
rejected before the handler body runs; the spec's File Intake contract calls
this rejection ValidationError ("Fails with ValidationError if no files are
supplied"). -/
def intakeFilesValid (files : List FileUpload) : Bool :=
  !files.isEmpty

/-- Embedding of the intake route `create_batch` of app/api/v1/batches.py,
guarded by the request-validation check `intakeFilesValid`: save the files,
insert one batch with status PENDING, `document_count` equal to the number of
files and counter columns at their 0 defaults, and return it. -/
def create_batch (db : DB) (name description document_type : String)
    (files : List FileUpload) (owner_id : Nat) : DB × Except ServiceError BatchRec :=
  if intakeFilesValid files then
    let batch : BatchRec :=
      { id := db.next_batch_id
        name := name
        description := description
        document_type := document_type
        file_path := "uploads/batches/" ++ name
        status := BatchStatus.pending
        document_count := files.length
        processed_count := 0
        failed_count := 0
        owner_id := owner_id
        total_documents := 0
        processed_documents := 0
        success_count := 0
        error_count := 0 }
    ({ db with
        batches := db.batches ++ [batch]
        next_batch_id := db.next_batch_id + 1 },
      Except.ok batch)
  else
    (db, Except.error ServiceError.requestValidationFailed)

/-- Embedding of the `delete_batch` route of app/api/v1/batches.py: remove
the batch row; the Document relationship cascades, deleting the batch's
documents. -/
def delete_batch (db : DB) (batch_id : Nat) : DB × Except ServiceError Unit :=
  match findBatch db batch_id with
  | none => (db, Except.error ServiceError.batchNotFound)
  | some _ =>
      ({ db with
          batches := db.batches.filter (fun b => !(b.id == batch_id))
          documents := db.documents.filter (fun d => !(d.batch_id == some batch_id)) },
        Except.ok ())

/-! ## Helper lemmas -/

theorem vnumDesc_trans (a b c : DocumentVersionRec)
    (hab : vnumDesc a b = true) (hbc : vnumDesc b c = true) : vnumDesc a c = true := by
  simp only [vnumDesc, decide_eq_true_eq] at *
  omega

theorem vnumDesc_total (a b : DocumentVersionRec) :
    (vnumDesc a b || vnumDesc b a) = true := by
  simp only [vnumDesc, Bool.or_eq_true, decide_eq_true_eq]
  omega

theorem vnumAsc_trans (a b c : DocumentVersionRec)
    (hab : vnumAsc a b = true) (hbc : vnumAsc b c = true) : vnumAsc a c = true := by
  simp only [vnumAsc, decide_eq_true_eq] at *
  omega

theorem vnumAsc_total (a b : DocumentVersionRec) :
    (vnumAsc a b || vnumAsc b a) = true := by
  simp only [vnumAsc, Bool.or_eq_true, decide_eq_true_eq]
  omega

/-- The head of the descending sort is a maximal element of the list. -/
theorem head_mergeSort_desc_max {l : List DocumentVersionRec} {v : DocumentVersionRec}
    (h : (l.mergeSort vnumDesc).head? = some v) :
    v ∈ l ∧ ∀ x ∈ l, x.version_number ≤ v.version_number := by
  have hperm := l.mergeSort_perm vnumDesc
  have hsorted := List.sorted_mergeSort vnumDesc_trans vnumDesc_total l
  cases hms : l.mergeSort vnumDesc with
  | nil => rw [hms] at h; simp at h
  | cons a rest =>
    rw [hms] at h hperm hsorted
    have hav : a = v := by simpa using h
    subst hav
    refine ⟨hperm.mem_iff.mp (List.mem_cons_self a rest), ?_⟩
    intro x hx
    have hx' : x ∈ a :: rest := hperm.mem_iff.mpr hx
    rcases List.mem_cons.mp hx' with hxa | hxr
    · subst hxa; exact Nat.le_refl _
    · have := (List.pairwise_cons.mp hsorted).1 x hxr
      simpa [vnumDesc] using this

/-- Specialisation of `List.max?_eq_some_iff` to natural numbers. -/
theorem nat_max?_eq_some_iff {a : Nat} {xs : List Nat} :
    xs.max? = some a ↔ a ∈ xs ∧ ∀ b ∈ xs, b ≤ a :=
  List.max?_eq_some_iff (fun a => Nat.le_refl a) (fun a b => max_choice a b)
    (fun _ _ _ => Nat.max_le)

/-! ## Claims about the version service -/

/-- C4: `create_version` assigns the new DocumentVersion the version number
max(existing version numbers for that document) + 1, and 1 when the document
has no versions. -/
theorem create_version_numbers_max_plus_one (db : DB) (d : Nat)
    (pt aa ch : PyDict) (cb : Nat) :
    (((versionsOfDocument db d).map (fun v => v.version_number)).max? = none →
        (create_version db d pt aa ch cb).1.version_number = 1) ∧
    (∀ m, ((versionsOfDocument db d).map (fun v => v.version_number)).max? = some m →
        (create_version db d pt aa ch cb).1.version_number = m + 1) := by
  constructor
  · intro h
    have hnil : versionsOfDocument db d = [] :=
      List.map_eq_nil_iff.mp (List.max?_eq_none_iff.mp h)
    simp [create_version, latestVersionQuery, hnil]
  · intro m hm
    obtain ⟨hmem, hbound⟩ := nat_max?_eq_some_iff.mp hm
    cases hlatest : latestVersionQuery db d with
    | none =>
      exfalso
      have hnil : (versionsOfDocument db d).mergeSort vnumDesc = [] :=
        List.head?_eq_none_iff.mp hlatest
      have hp := (versionsOfDocument db d).mergeSort_perm vnumDesc
      rw [hnil] at hp
      have : versionsOfDocument db d = [] := hp.symm.eq_nil
      simp [this] at hmem
    | some latest =>
      obtain ⟨hlmem, hlmax⟩ := head_mergeSort_desc_max hlatest
      obtain ⟨w, hw, hwn⟩ := List.mem_map.mp hmem
      have h1 : m ≤ latest.version_number := hwn ▸ hlmax w hw
      have h2 : latest.version_number ≤ m :=
        hbound _ (List.mem_map_of_mem (fun v => v.version_number) hlmem)
      have : latest.version_number = m := Nat.le_antisymm h2 h1
      simp [create_version, hlatest, this]

/-- Version record used by the C4 witness: document 1, version `n`. -/
def c4Version (n : Nat) : DocumentVersionRec :=
  { id := n, document_id := 1, version_number := n, processed_text := []
    ai_analysis := [], changes := [], created_by := 1 }

/-- Store used by the C4 witness: document 1 holds versions [1, 2]. -/
def c4Db : DB :=
  { batches := [], documents := [], versions := [c4Version 1, c4Version 2]
    next_batch_id := 1, next_document_id := 1, next_version_id := 3 }

/-- Witness for C4: on a document with existing versions [1, 2] the new
version is numbered 3. -/
theorem create_version_numbers_max_plus_one_witness :
    (create_version c4Db 1 [] [] [] 7).1.version_number = 3 :=
  (create_version_numbers_max_plus_one c4Db 1 [] [] [] 7).2 2 (by decide)

/-- Store used by the C5 theorems: no documents and no versions at all. -/
def c5Db : DB :=
  { batches := [], documents := [], versions := []
    next_batch_id := 1, next_document_id := 1, next_version_id := 1 }

/-- C5 counterexample: the store holds no document at all, in particular
none with id 5, yet `create_version` for document 5 does not fail — it
inserts a DocumentVersion for document 5 numbered 1.  The claimed
NotFoundError does not exist: `DocumentVersionService.create_version`
performs no existence check on `document_id`. -/
theorem create_version_missing_document_inserts :
    c5Db.documents = [] ∧
    (create_version c5Db 5 [] [] [] 1).2.versions.map (fun v => v.document_id) = [5] ∧
    (create_version c5Db 5 [] [] [] 1).1.version_number = 1 := by
  refine ⟨rfl, by decide, ?_⟩
  simp [create_version, latestVersionQuery, versionsOfDocument, c5Db, List.mergeSort_nil]

/-- C5 amended: `create_version` performs no existence check on the
document: even for a `document_id` with no Document record it does not fail,
and it appends exactly one new DocumentVersion carrying that `document_id`
(numbered max(existing)+1, or 1 when the document has no versions, as in C4). -/
theorem create_version_no_existence_check (db : DB) (d : Nat)
    (pt aa ch : PyDict) (cb : Nat) (_h : ∀ doc ∈ db.documents, doc.id ≠ d) :
    (create_version db d pt aa ch cb).2.versions
        = db.versions ++ [(create_version db d pt aa ch cb).1] ∧
    (create_version db d pt aa ch cb).1.document_id = d :=
  ⟨rfl, rfl⟩

/-- Witness for the amended C5, at the concrete store with no documents. -/
theorem create_version_no_existence_check_witness :
    (create_version c5Db 5 [] [] [] 1).2.versions
        = c5Db.versions ++ [(create_version c5Db 5 [] [] [] 1).1] ∧
    (create_version c5Db 5 [] [] [] 1).1.document_id = 5 :=
  create_version_no_existence_check c5Db 5 [] [] [] 1 (by decide)

/-- C6: `get_version` fails with the not-found error exactly when no version
of the document carries the requested number, and on success returns that
version's record (a stored record matching both keys). -/
theorem get_version_point_lookup (db : DB) (d n : Nat) :
    ((∀ v ∈ db.versions, ¬(v.document_id = d ∧ v.version_number = n)) →
        get_version db d n = Except.error ServiceError.versionNotFound) ∧
    (∀ v, get_version db d n = Except.ok v →
        v ∈ db.versions ∧ v.document_id = d ∧ v.version_number = n) ∧
    ((∃ v ∈ db.versions, v.document_id = d ∧ v.version_number = n) →
        ∃ v, get_version db d n = Except.ok v) := by
  refine ⟨?_, ?_, ?_⟩
  · intro h
    have hfind : db.versions.find?
        (fun v => v.document_id == d && v.version_number == n) = none := by
      rw [List.find?_eq_none]
      intro v hv
      simpa using h v hv
    simp [get_version, hfind]
  · intro v hv
    cases hfind : db.versions.find?
        (fun v => v.document_id == d && v.version_number == n) with
    | none => simp [get_version, hfind] at hv
    | some w =>
      have hvw : w = v := by simpa [get_version, hfind] using hv
      subst hvw
      have hmem := List.mem_of_find?_eq_some hfind
      have hp := List.find?_some hfind
      simp only [Bool.and_eq_true, beq_iff_eq] at hp
      exact ⟨hmem, hp.1, hp.2⟩
  · rintro ⟨v, hv, hd, hn⟩
    cases hfind : db.versions.find?
        (fun v => v.document_id == d && v.version_number == n) with
    | none =>
      exfalso
      have := List.find?_eq_none.mp hfind v hv
      simp [hd, hn] at this
    | some w => exact ⟨w, by simp [get_version, hfind]⟩

/-- Version record used by the C6 witness. -/
def c6Version (n : Nat) : DocumentVersionRec :=
  { id := n, document_id := 1, version_number := n
    processed_text := [("body", "v" ++ toString n)], ai_analysis := [], changes := []
    created_by := 1 }

/-- Store used by the C6 witness: document 1 holds only versions [1, 2]. -/
def c6Db : DB :=
  { batches := [], documents := [], versions := [c6Version 1, c6Version 2]
    next_batch_id := 1, next_document_id := 1, next_version_id := 3 }

/-- Witness for C6: version 99 of document 1 is absent and the lookup fails
with the not-found error; version 2 is present and the lookup succeeds. -/
theorem get_version_point_lookup_witness :
    get_version c6Db 1 99 = Except.error ServiceError.versionNotFound ∧
    (∃ v, get_version c6Db 1 2 = Except.ok v) :=
  ⟨(get_version_point_lookup c6Db 1 99).1 (by decide),
   (get_version_point_lookup c6Db 1 2).2.2 (by decide)⟩

/-- Comparing a text dict with itself yields no change entry. -/
theorem compare_text_self (t : PyDict) : compare_text t t = [] := by
  rw [compare_text, List.filterMap_eq_nil_iff]
  intro k _
  simp

/-- Comparing an analysis dict with itself yields no change entry. -/
theorem compare_analysis_self (t : PyDict) : compare_analysis t t = [] := by
  rw [compare_analysis, List.filterMap_eq_nil_iff]
  intro k _
  simp

/-- C7: for every document and every existing version of it, comparing the
version to itself succeeds and yields an empty field-change set — no text
changes and no analysis changes. -/
theorem compare_versions_self_empty (db : DB) (d n : Nat)
    (h : ∃ v ∈ db.versions, v.document_id = d ∧ v.version_number = n) :
    ∃ r, compare_versions db d n n = Except.ok r ∧
      r.text_changes = [] ∧ r.analysis_changes = [] := by
  obtain ⟨v, hv, hd, hn⟩ := h
  cases hfind : db.versions.find?
      (fun v => v.document_id == d && v.version_number == n) with
  | none =>
    exfalso
    have := List.find?_eq_none.mp hfind v hv
    simp [hd, hn] at this
  | some w =>
    refine ⟨{ version1 := w.version_number, version2 := w.version_number,
              text_changes := compare_text w.processed_text w.processed_text,
              analysis_changes := compare_analysis w.ai_analysis w.ai_analysis },
            ?_, compare_text_self _, compare_analysis_self _⟩
    simp [compare_versions, hfind]

/-- Store used by the C7 witness: document 1 holds a version 2 with
non-trivial text and analysis dicts. -/
def c7Db : DB :=
  { batches := [], documents := []
    versions := [{ id := 1, document_id := 1, version_number := 2
                   processed_text := [("body", "hello"), ("title", "t")]
                   ai_analysis := [("summary", "s")], changes := [], created_by := 1 }]
    next_batch_id := 1, next_document_id := 1, next_version_id := 2 }

/-- Witness for C7 at the concrete store: comparing version 2 of document 1
to itself yields empty change sets. -/
theorem compare_versions_self_empty_witness :
    ∃ r, compare_versions c7Db 1 2 2 = Except.ok r ∧
      r.text_changes = [] ∧ r.analysis_changes = [] :=
  compare_versions_self_empty c7Db 1 2 (by decide)

/-- C8: `list_versions` returns exactly the document's versions (a
permutation of the stored rows with that document id), ordered by version
number ascending, and the empty sequence — not an error — when the document
has no versions. -/
theorem list_versions_ordered_complete (db : DB) (d : Nat) :
    (list_versions db d).Perm (versionsOfDocument db d) ∧
    List.Pairwise (fun a b => a.version_number ≤ b.version_number) (list_versions db d) ∧
    (versionsOfDocument db d = [] → list_versions db d = []) := by
  refine ⟨List.mergeSort_perm _ _, ?_, ?_⟩
  · have hs := List.sorted_mergeSort vnumAsc_trans vnumAsc_total (versionsOfDocument db d)
    exact hs.imp (fun hab => by simpa [vnumAsc] using hab)
  · intro h
    simp [list_versions, h, List.mergeSort_nil]

/-- Store used by the C8 witness: document 1 holds versions [2, 1] stored
out of order; document 9 holds none. -/
def c8Db : DB :=
  { batches := [], documents := []
    versions := [{ id := 2, document_id := 1, version_number := 2, processed_text := []
                   ai_analysis := [], changes := [], created_by := 1 },
                 { id := 1, document_id := 1, version_number := 1, processed_text := []
                   ai_analysis := [], changes := [], created_by := 1 }]
    next_batch_id := 1, next_document_id := 1, next_version_id := 3 }

/-- Witness for C8: a document with no versions yields the empty sequence,
and a document with versions yields a permutation of its stored rows. -/
theorem list_versions_ordered_complete_witness :
    list_versions c8Db 9 = [] ∧
    (list_versions c8Db 1).Perm (versionsOfDocument c8Db 1) :=
  ⟨(list_versions_ordered_complete c8Db 9).2.2 (by decide),
   (list_versions_ordered_complete c8Db 1).1⟩

/-! ## Helper lemmas about batch-store updates -/

instance {ε α : Type} [DecidableEq ε] [DecidableEq α] : DecidableEq (Except ε α) := fun a b =>
  match a, b with
  | Except.error e1, Except.error e2 =>
    if h : e1 = e2 then isTrue (congrArg Except.error h)
    else isFalse (fun hc => h (Except.error.inj hc))
  | Except.ok v1, Except.ok v2 =>
    if h : v1 = v2 then isTrue (congrArg Except.ok h)
    else isFalse (fun hc => h (Except.ok.inj hc))
  | Except.error _, Except.ok _ => isFalse (fun hc => Except.noConfusion hc)
  | Except.ok _, Except.error _ => isFalse (fun hc => Except.noConfusion hc)

/-- Updating the row with a given id through an id-preserving function
rewrites exactly the row the first-match lookup returns. -/
theorem find?_update_self (l : List BatchRec) (i : Nat) (f : BatchRec → BatchRec)
    (hf : ∀ b, (f b).id = b.id) :
    (l.map (fun b => if b.id == i then f b else b)).find? (fun b => b.id == i)
      = (l.find? (fun b => b.id == i)).map f := by
  induction l with
  | nil => rfl
  | cons a l ih =>
    rw [List.map_cons]
    by_cases h : (a.id == i) = true
    · have hfa : ((f a).id == i) = true := by rw [hf a]; exact h
      rw [if_pos h,
        @List.find?_cons_of_pos _ (fun b => b.id == i) (f a) _ hfa,
        @List.find?_cons_of_pos _ (fun b => b.id == i) a l h]
      rfl
    · rw [if_neg h,
        @List.find?_cons_of_neg _ (fun b => b.id == i) a _ h,
        @List.find?_cons_of_neg _ (fun b => b.id == i) a l h, ih]

/-- Lookup after `updateBatch` with an id-preserving function. -/
theorem findBatch_updateBatch (db : DB) (i : Nat) (f : BatchRec → BatchRec)
    (hf : ∀ b, (f b).id = b.id) :
    findBatch (updateBatch db i f) i = (findBatch db i).map f :=
  find?_update_self db.batches i f hf

/-- `updateBatch` leaves the documents untouched, so the pending-document
query of a batch is unchanged. -/
theorem pendingDocsOfBatch_updateBatch (db : DB) (i : Nat) (f : BatchRec → BatchRec)
    (j : Nat) : pendingDocsOfBatch (updateBatch db i f) j = pendingDocsOfBatch db j := rfl

/-! ## Claims about intake and batch state checks -/

/-- C9: a batch-creation intake request with zero files is rejected with the
validation error and the store is unchanged — no Batch record is created. -/
theorem create_batch_zero_files_rejected (db : DB)
    (name description document_type : String) (owner_id : Nat) :
    create_batch db name description document_type [] owner_id
      = (db, Except.error ServiceError.requestValidationFailed) := rfl

/-- C10: `add_documents_to_batch` on a batch whose status is not PENDING
fails with ValueError "Cannot add documents to a non-pending batch" and
leaves the whole store unchanged: no Document records are created and the
batch's document total is not incremented. -/
theorem add_documents_rejects_non_pending (db : DB) (batch_id : Nat)
    (files : List FileUpload) (b : BatchRec)
    (hfind : findBatch db batch_id = some b) (hst : b.status ≠ BatchStatus.pending) :
    add_documents_to_batch db batch_id files
      = (db, Except.error ServiceError.batchNotPendingForAdd) := by
  simp [add_documents_to_batch, hfind, hst]

/-- Batch used by the C10 witness: already COMPLETED. -/
def c10Batch : BatchRec :=
  { id := 1, name := "b", description := "", document_type := "other"
    file_path := "p", status := BatchStatus.completed, document_count := 2
    processed_count := 0, failed_count := 0, owner_id := 1, total_documents := 2
    processed_documents := 2, success_count := 2, error_count := 0 }

/-- Store used by the C10 witness. -/
def c10Db : DB :=
  { batches := [c10Batch], documents := [], versions := []
    next_batch_id := 2, next_document_id := 1, next_version_id := 1 }

/-- Witness for C10: adding a file to the completed batch is rejected and
the store is returned unchanged. -/
theorem add_documents_rejects_non_pending_witness :
    add_documents_to_batch c10Db 1 [{ filename := "a.pdf", content := "x" }]
      = (c10Db, Except.error ServiceError.batchNotPendingForAdd) :=
  add_documents_rejects_non_pending c10Db 1 [{ filename := "a.pdf", content := "x" }]
    c10Batch (by decide) (by decide)

/-- C3: re-submitting `process_batch` on a batch whose status is not PENDING
(in particular one already COMPLETED) fails with ValueError "Batch is not in
pending state" (the spec's InvalidStateError) before any mutation: the whole
store — status and all counters included — is returned unchanged. -/
theorem process_batch_rejects_non_pending (proc : Extractor) (db : DB)
    (batch_id : Nat) (b : BatchRec)
    (hfind : findBatch db batch_id = some b) (hst : b.status ≠ BatchStatus.pending) :
    process_batch proc db batch_id
      = (db, Except.error ServiceError.batchNotPendingForProcess) := by
  simp [process_batch, hfind, hst]

/-- Batch used by the C3 witness: already COMPLETED, with counters set. -/
def c3Batch : BatchRec :=
  { id := 1, name := "b", description := "", document_type := "other"
    file_path := "p", status := BatchStatus.completed, document_count := 3
    processed_count := 0, failed_count := 0, owner_id := 1, total_documents := 3
    processed_documents := 3, success_count := 3, error_count := 0 }

/-- Store used by the C3 witness. -/
def c3Db : DB :=
  { batches := [c3Batch], documents := [], versions := []
    next_batch_id := 2, next_document_id := 1, next_version_id := 1 }

/-- Witness for C3: re-submitting orchestration on the completed batch fails
with the invalid-state error and the store, counters included, is unchanged. -/
theorem process_batch_rejects_non_pending_witness :
    process_batch (fun _ => none) c3Db 1
      = (c3Db, Except.error ServiceError.batchNotPendingForProcess) :=
  process_batch_rejects_non_pending (fun _ => none) c3Db 1 c3Batch (by decide) (by decide)

/-! ## The batch counter invariant (C2) -/

/-- The claimed counter invariant of one Batch row, over the model's declared
columns `processed_count`, `failed_count` and `document_count`. -/
def batchCounterInv (b : BatchRec) : Prop :=
  0 ≤ b.processed_count + b.failed_count ∧
    b.processed_count + b.failed_count ≤ b.document_count

instance (b : BatchRec) : Decidable (batchCounterInv b) := by
  unfold batchCounterInv; infer_instance

/-- The invariant holds of every batch row in the store. -/
def dbBatchInv (db : DB) : Prop :=
  ∀ b ∈ db.batches, batchCounterInv b

instance (db : DB) : Decidable (dbBatchInv db) := by
  unfold dbBatchInv; exact List.decidableBAll _ _

/-- `updateBatch` preserves the store invariant whenever the row update
preserves the row invariant. -/
theorem dbBatchInv_updateBatch {db : DB} {i : Nat} {f : BatchRec → BatchRec}
    (hf : ∀ b, batchCounterInv b → batchCounterInv (f b)) (h : dbBatchInv db) :
    dbBatchInv (updateBatch db i f) := by
  intro b hb
  simp only [updateBatch, List.mem_map] at hb
  obtain ⟨a, ha, hab⟩ := hb
  subst hab
  by_cases hai : (a.id == i) = true
  · rw [if_pos hai]; exact hf a (h a ha)
  · rw [if_neg hai]; exact h a ha

/-- The success loop of `process_batch` preserves the store invariant: each
step only touches a document row and the non-column counters. -/
theorem dbBatchInv_foldl_applySuccess (i : Nat)
    (pairs : List (DocumentRec × ProcessResult)) (db : DB) (h : dbBatchInv db) :
    dbBatchInv (pairs.foldl (applySuccess i) db) := by
  induction pairs generalizing db with
  | nil => exact h
  | cons p ps ih =>
    rw [List.foldl_cons]
    exact ih _ (dbBatchInv_updateBatch (fun b hb => hb) h)

/-- Intake `create_batch` preserves the store invariant. -/
theorem dbBatchInv_create_batch (db : DB) (h : dbBatchInv db)
    (name description document_type : String) (files : List FileUpload)
    (owner_id : Nat) :
    dbBatchInv (create_batch db name description document_type files owner_id).1 := by
  unfold create_batch
  by_cases hv : intakeFilesValid files = true
  · rw [if_pos hv]
    intro b hb
    rcases List.mem_append.mp hb with hmem | hnew
    · exact h b hmem
    · rcases List.mem_singleton.mp hnew with rfl
      exact ⟨Nat.zero_le _, Nat.zero_le _⟩
  · rw [if_neg hv]
    exact h

/-- `BatchProcessor.create_batch` preserves the store invariant. -/
theorem dbBatchInv_bp_create_batch (db : DB) (h : dbBatchInv db)
    (name description document_type : String) (owner_id : Nat) :
    dbBatchInv (bp_create_batch db name description document_type owner_id).2 := by
  intro b hb
  rcases List.mem_append.mp hb with hmem | hnew
  · exact h b hmem
  · rcases List.mem_singleton.mp hnew with rfl
    exact ⟨Nat.zero_le _, Nat.zero_le _⟩

/-- `add_documents_to_batch` preserves the store invariant. -/
theorem dbBatchInv_add_documents (db : DB) (h : dbBatchInv db)
    (batch_id : Nat) (files : List FileUpload) :
    dbBatchInv (add_documents_to_batch db batch_id files).1 := by
  unfold add_documents_to_batch
  split
  · exact h
  · split
    · exact h
    · exact dbBatchInv_updateBatch (fun b hb => hb) h

/-- `process_batch` preserves the store invariant in every branch. -/
theorem dbBatchInv_process_batch (proc : Extractor) (db : DB) (h : dbBatchInv db)
    (batch_id : Nat) :
    dbBatchInv (process_batch proc db batch_id).1 := by
  unfold process_batch
  split
  · exact h
  · split
    · exact h
    · dsimp only
      split
      · exact dbBatchInv_updateBatch (fun b hb => hb)
          (dbBatchInv_updateBatch (fun b hb => hb) h)
      · exact dbBatchInv_updateBatch (fun b hb => hb)
          (dbBatchInv_foldl_applySuccess _ _ _
            (dbBatchInv_updateBatch (fun b hb => hb) h))

/-- `delete_batch` preserves the store invariant. -/
theorem dbBatchInv_delete_batch (db : DB) (h : dbBatchInv db) (batch_id : Nat) :
    dbBatchInv (delete_batch db batch_id).1 := by
  unfold delete_batch
  split
  · exact h
  · exact fun b hb => h b (List.mem_of_mem_filter hb)

/-- C2: the counters of every batch satisfy
0 ≤ processed_count + failed_count ≤ document_count, and every operation of
the pipeline that mutates a batch — intake creation, processor creation,
adding documents, orchestration in all of its branches, and deletion —
preserves this invariant for every batch in the store. -/
theorem batch_counter_invariant_preserved (db : DB) (hinv : dbBatchInv db)
    (name description document_type : String) (files : List FileUpload)
    (owner_id batch_id : Nat) (proc : Extractor) :
    dbBatchInv (create_batch db name description document_type files owner_id).1 ∧
    dbBatchInv (bp_create_batch db name description document_type owner_id).2 ∧
    dbBatchInv (add_documents_to_batch db batch_id files).1 ∧
    dbBatchInv (process_batch proc db batch_id).1 ∧
    dbBatchInv (delete_batch db batch_id).1 :=
  ⟨dbBatchInv_create_batch db hinv name description document_type files owner_id,
   dbBatchInv_bp_create_batch db hinv name description document_type owner_id,
   dbBatchInv_add_documents db hinv batch_id files,
   dbBatchInv_process_batch proc db hinv batch_id,
   dbBatchInv_delete_batch db hinv batch_id⟩

/-- Store used by the C2 witness: one pending batch whose counters satisfy
the invariant. -/
def c2Batch : BatchRec :=
  { id := 1, name := "b", description := "", document_type := "other"
    file_path := "p", status := BatchStatus.pending, document_count := 2
    processed_count := 1, failed_count := 1, owner_id := 1, total_documents := 2
    processed_documents := 0, success_count := 0, error_count := 0 }

/-- Store used by the C2 witness. -/
def c2Db : DB :=
  { batches := [c2Batch], documents := [], versions := []
    next_batch_id := 2, next_document_id := 1, next_version_id := 1 }

/-- Witness for C2 at the concrete store: every batch-mutating operation
keeps the counter invariant. -/
theorem batch_counter_invariant_preserved_witness :
    dbBatchInv (create_batch c2Db "n" "" "other" [{ filename := "a.pdf", content := "x" }] 1).1 ∧
    dbBatchInv (bp_create_batch c2Db "n" "" "other" 1).2 ∧
    dbBatchInv (add_documents_to_batch c2Db 1 [{ filename := "a.pdf", content := "x" }]).1 ∧
    dbBatchInv (process_batch (fun _ => none) c2Db 1).1 ∧
    dbBatchInv (delete_batch c2Db 1).1 :=
  batch_counter_invariant_preserved c2Db (by decide) "n" "" "other"
    [{ filename := "a.pdf", content := "x" }] 1 1 (fun _ => none)

/-! ## The abort-on-failure behaviour of process_batch (C1) -/

/-- A gather over a list containing a failing document raises. -/
theorem gatherResults_eq_none_of_mem {proc : Extractor} {l : List DocumentRec}
    {d : DocumentRec} (hd : d ∈ l) (h : proc d = none) :
    gatherResults proc l = none := by
  induction l with
  | nil => simp at hd
  | cons a l ih =>
    rcases List.mem_cons.mp hd with rfl | hmem
    · simp [gatherResults, h]
    · cases hpa : proc a with
      | none => simp [gatherResults, hpa]
      | some r => simp [gatherResults, hpa, ih hmem]

/-- A gather over documents that all extract successfully delivers one
result per document. -/
theorem gatherResults_eq_some_of_forall {proc : Extractor} {l : List DocumentRec}
    (h : ∀ d ∈ l, (proc d).isSome) :
    ∃ rs, gatherResults proc l = some rs ∧ rs.length = l.length := by
  induction l with
  | nil => exact ⟨[], rfl, rfl⟩
  | cons a l ih =>
    obtain ⟨r, hr⟩ := Option.isSome_iff_exists.mp (h a (List.mem_cons_self a l))
    obtain ⟨rs, hrs, hlen⟩ := ih (fun d hd => h d (List.mem_cons_of_mem a hd))
    exact ⟨r :: rs, by simp [gatherResults, hr, hrs], by simp [hlen]⟩

/-- One success-loop step increments the looked-up batch's two non-column
counters. -/
theorem findBatch_applySuccess (i : Nat) (db : DB) (p : DocumentRec × ProcessResult)
    {b : BatchRec} (hfind : findBatch db i = some b) :
    findBatch (applySuccess i db p) i =
      some { b with
               processed_documents := b.processed_documents + 1
               success_count := b.success_count + 1 } := by
  have h := findBatch_updateBatch
      (updateDocument db p.1.id (fun d =>
        { d with
            processed_text := some p.2.text
            ai_analysis := some p.2.analysis
            status := "processed" }))
      i
      (fun x => { x with
                    processed_documents := x.processed_documents + 1
                    success_count := x.success_count + 1 })
      (fun _ => rfl)
  have h2 : findBatch (updateDocument db p.1.id (fun d =>
      { d with
          processed_text := some p.2.text
          ai_analysis := some p.2.analysis
          status := "processed" })) i = some b := hfind
  rw [h2] at h
  exact h

/-- The whole success loop adds the number of processed pairs to the
looked-up batch's `processed_documents` and `success_count`. -/
theorem findBatch_foldl_applySuccess (i : Nat)
    (pairs : List (DocumentRec × ProcessResult)) (db : DB) (b : BatchRec)
    (hfind : findBatch db i = some b) :
    findBatch (pairs.foldl (applySuccess i) db) i =
      some { b with
               processed_documents := b.processed_documents + pairs.length
               success_count := b.success_count + pairs.length } := by
  induction pairs generalizing db b with
  | nil => exact hfind
  | cons p ps ih =>
    rw [List.foldl_cons, ih (applySuccess i db p) _ (findBatch_applySuccess i db p hfind)]
    simp only [List.length_cons, Option.some.injEq, BatchRec.mk.injEq, true_and, and_true]
    omega

/-- Evaluation of `process_batch` on a PENDING batch, separating the two
gather outcomes: an abort pair when any extraction raises, the success run
otherwise. -/
theorem process_batch_eq_pending (proc : Extractor) (db : DB) (batch_id : Nat)
    (b : BatchRec) (hfind : findBatch db batch_id = some b)
    (hpend : b.status = BatchStatus.pending) :
    process_batch proc db batch_id =
      (match gatherResults proc (pendingDocsOfBatch db batch_id) with
       | none =>
         (updateBatch
            (updateBatch db batch_id (fun x => { x with status := BatchStatus.processing }))
            batch_id
            (fun x => { x with status := BatchStatus.failed, error_count := x.error_count + 1 }),
          Except.error ServiceError.batchProcessingFailed)
       | some results =>
         let db1 := updateBatch db batch_id
           (fun x => { x with status := BatchStatus.processing })
         let db2 := ((pendingDocsOfBatch db batch_id).zip results).foldl
           (applySuccess batch_id) db1
         let db3 := updateBatch db2 batch_id
           (fun x => { x with status := BatchStatus.completed })
         let final := (findBatch db3 batch_id).getD b
         (db3,
           Except.ok
             { batch_id := batch_id
               status := final.status
               processed_documents := final.processed_documents
               success_count := final.success_count
               error_count := final.error_count })) := by
  unfold process_batch
  split
  · rename_i heq
    rw [hfind] at heq
    simp at heq
  · rename_i batch' heq
    rw [hfind] at heq
    injection heq with heq'
    subst heq'
    rw [if_neg (fun hc => hc hpend)]
    rfl

/-- Batch used by the C1 theorems: PENDING with 3 expected documents. -/
def c1Batch : BatchRec :=
  { id := 1, name := "b", description := "", document_type := "other"
    file_path := "p", status := BatchStatus.pending, document_count := 3
    processed_count := 0, failed_count := 0, owner_id := 1, total_documents := 3
    processed_documents := 0, success_count := 0, error_count := 0 }

/-- One pending document of the C1 batch. -/
def c1Doc (n : Nat) : DocumentRec :=
  { id := n, filename := "f" ++ toString n, file_type := "pdf"
    document_type := "other", batch_id := some 1, owner_id := 1
    status := "pending", file_content := "", processed_text := none
    ai_analysis := none }

/-- Store used by the C1 theorems: one pending batch with 3 pending
documents. -/
def c1Db : DB :=
  { batches := [c1Batch], documents := [c1Doc 1, c1Doc 2, c1Doc 3], versions := []
    next_batch_id := 2, next_document_id := 4, next_version_id := 1 }

/-- Extractor whose call raises exactly on document 2 and succeeds on the
other documents. -/
def c1ProcFail : Extractor := fun d =>
  if d.id == 2 then none
  else some { text := [("content", "ok")], analysis := [("type", "other")] }

/-- Extractor that succeeds on every document. -/
def c1ProcOk : Extractor := fun _ =>
  some { text := [("content", "ok")], analysis := [("type", "other")] }

/-- C1 counterexample: a batch of 3 files in which exactly one extraction
raises.  The claim predicts terminal status COMPLETED with two successes and
one counted failure; the code instead aborts the whole gather: the batch
ends FAILED, the model's `processed_count`/`failed_count` columns stay 0,
no per-document success is counted (`processed_documents` = `success_count`
= 0), `error_count` is incremented exactly once, and the call re-raises the
wrapped exception instead of returning a summary. -/
theorem process_batch_single_failure_aborts :
    (process_batch c1ProcFail c1Db 1).2
        = Except.error ServiceError.batchProcessingFailed ∧
    (process_batch c1ProcFail c1Db 1).1.batches.map (fun b =>
        (b.status, b.processed_count, b.failed_count, b.processed_documents,
         b.success_count, b.error_count))
      = [(BatchStatus.failed, 0, 0, 0, 0, 1)] := by
  constructor <;> decide

/-- C1 amended: on a PENDING batch, `process_batch` has no per-file failure
isolation.  If any pending document's extraction raises, the run aborts: the
call re-raises (an error result), the batch ends in status FAILED with
`error_count` incremented exactly once — regardless of how many files failed
— and no document row is touched.  Only when every extraction succeeds does
the batch reach COMPLETED, with `processed_documents` and `success_count`
advanced by the number of pending documents. -/
theorem process_batch_no_failure_isolation (proc : Extractor) (db : DB)
    (batch_id : Nat) (b : BatchRec) (hfind : findBatch db batch_id = some b)
    (hpend : b.status = BatchStatus.pending) :
    ((∃ d ∈ pendingDocsOfBatch db batch_id, proc d = none) →
      (process_batch proc db batch_id).2
          = Except.error ServiceError.batchProcessingFailed ∧
      findBatch (process_batch proc db batch_id).1 batch_id =
        some { b with status := BatchStatus.failed
                      error_count := b.error_count + 1 } ∧
      (process_batch proc db batch_id).1.documents = db.documents) ∧
    ((∀ d ∈ pendingDocsOfBatch db batch_id, (proc d).isSome) →
      (∃ s, (process_batch proc db batch_id).2 = Except.ok s) ∧
      findBatch (process_batch proc db batch_id).1 batch_id =
        some { b with
                 status := BatchStatus.completed
                 processed_documents :=
                   b.processed_documents + (pendingDocsOfBatch db batch_id).length
                 success_count :=
                   b.success_count + (pendingDocsOfBatch db batch_id).length }) := by
  constructor
  · rintro ⟨d, hd, hdn⟩
    have hg : gatherResults proc (pendingDocsOfBatch db batch_id) = none :=
      gatherResults_eq_none_of_mem hd hdn
    have k1 := findBatch_updateBatch db batch_id
      (fun x => { x with status := BatchStatus.processing }) (fun _ => rfl)
    have k2 := findBatch_updateBatch
      (updateBatch db batch_id (fun x => { x with status := BatchStatus.processing }))
      batch_id
      (fun x => { x with status := BatchStatus.failed
                         error_count := x.error_count + 1 })
      (fun _ => rfl)
    rw [k1, hfind] at k2
    have key : findBatch
        (updateBatch
          (updateBatch db batch_id (fun x => { x with status := BatchStatus.processing }))
          batch_id
          (fun x => { x with status := BatchStatus.failed
                             error_count := x.error_count + 1 }))
        batch_id =
        some { b with status := BatchStatus.failed
                      error_count := b.error_count + 1 } := k2.trans rfl
    rw [process_batch_eq_pending proc db batch_id b hfind hpend, hg]
    exact ⟨rfl, key, rfl⟩
  · intro hall
    obtain ⟨rs, hg, hlen⟩ := gatherResults_eq_some_of_forall hall
    have k1 := findBatch_updateBatch db batch_id
      (fun x => { x with status := BatchStatus.processing }) (fun _ => rfl)
    rw [hfind] at k1
    have hfind1 : findBatch
        (updateBatch db batch_id (fun x => { x with status := BatchStatus.processing }))
        batch_id = some { b with status := BatchStatus.processing } := k1.trans rfl
    have hfold := findBatch_foldl_applySuccess batch_id
      ((pendingDocsOfBatch db batch_id).zip rs)
      (updateBatch db batch_id (fun x => { x with status := BatchStatus.processing }))
      { b with status := BatchStatus.processing } hfind1
    have key := findBatch_updateBatch
      (((pendingDocsOfBatch db batch_id).zip rs).foldl (applySuccess batch_id)
        (updateBatch db batch_id (fun x => { x with status := BatchStatus.processing })))
      batch_id
      (fun x => { x with status := BatchStatus.completed })
      (fun _ => rfl)
    rw [hfold] at key
    have hziplen : ((pendingDocsOfBatch db batch_id).zip rs).length
        = (pendingDocsOfBatch db batch_id).length := by
      rw [List.length_zip, hlen]
      exact Nat.min_self _
    rw [hziplen] at key
    rw [process_batch_eq_pending proc db batch_id b hfind hpend, hg]
    exact ⟨⟨_, rfl⟩, key⟩

/-- Witness for the amended C1 at the concrete 3-document batch: with one
failing extraction the batch ends FAILED with one error counted; with all
extractions succeeding it ends COMPLETED with both per-document counters at 3. -/
theorem process_batch_no_failure_isolation_witness :
    findBatch (process_batch c1ProcFail c1Db 1).1 1 =
      some { c1Batch with status := BatchStatus.failed, error_count := 1 } ∧
    (∃ s, (process_batch c1ProcOk c1Db 1).2 = Except.ok s) ∧
    findBatch (process_batch c1ProcOk c1Db 1).1 1 =
      some { c1Batch with status := BatchStatus.completed
                          processed_documents := 3, success_count := 3 } :=
  ⟨((process_batch_no_failure_isolation c1ProcFail c1Db 1 c1Batch (by decide) rfl).1
      (by decide)).2.1,
   ((process_batch_no_failure_isolation c1ProcOk c1Db 1 c1Batch (by decide) rfl).2
      (by decide)).1,
   ((process_batch_no_failure_isolation c1ProcOk c1Db 1 c1Batch (by decide) rfl).2
      (by decide)).2⟩
